import Mathlib

/-!
Shallow embedding of the backupfire-firebase agent (TypeScript sources
`src/users.ts` — given as `src/unnamed/part_000` — and `src/index.ts`).

The embedding models the repository's own orchestration code precisely.
Platform primitives (`firebase-tools` export, `fs` read, `JSON.parse`,
`bucket.upload`) are external effects: their outcomes are inputs in a
`PlatformEnv` record, and the file's JSON content is modelled by a
`JsValue` (integer numbers; string length counted in characters, which
agrees with JavaScript for BMP strings). Side effects performed by the
repository code are recorded as an event trace.
-/

namespace BackupFire

/-- JavaScript runtime errors / promise rejection reasons, as strings. -/
abbrev JsError := String

/-- Values produced by `JSON.parse` (numbers restricted to integers). -/
inductive JsValue where
  | null : JsValue
  | bool (b : Bool) : JsValue
  | num (n : Int) : JsValue
  | str (s : String) : JsValue
  | arr (xs : List JsValue) : JsValue
  | obj (fields : List (String × JsValue)) : JsValue

/-- Property lookup on a parsed JSON object: `some v` when the field is
present, `none` for JavaScript `undefined`. -/
def jsLookup (fields : List (String × JsValue)) (key : String) : Option JsValue :=
  match fields with
  | [] => none
  | (k, v) :: rest => if k = key then some v else jsLookup rest key

/-- From `src/unnamed/part_000`: `UsersBackupRequestOptions`. -/
structure UsersBackupRequestOptions where
  storageId : String
  path : String
deriving DecidableEq, Repr

/-- From `src/unnamed/part_000`: `UsersBackupOptions`. -/
structure UsersBackupOptions where
  bucketsAllowlist : Option (List String)
  projectId : String
deriving DecidableEq, Repr

/-- The wire envelope `{state, data}` returned by `backupUsers`
(`UsersStatusResponse`): `completed` carries `{usersCount, size}`,
`failed` carries `{reason}`. `usersCount` is whatever value the
`users.length` read produced. -/
inductive UsersStatusResponse where
  | completed (usersCount : JsValue) (size : String) : UsersStatusResponse
  | failed (reason : String) : UsersStatusResponse

/-- Side effects the repository code performs on the platform, in order. -/
inductive FsEvent where
  | exportStarted (tmpPath : String) (projectId : String) : FsEvent
  | unlink (tmpPath : String) : FsEvent
  | uploadStarted (localPath : String) (destination : String) : FsEvent
deriving DecidableEq, Repr

/-- Outcomes of the external platform primitives that one `backupUsers`
invocation consumes: the `tools.auth.export` call, the
`readFile`+`JSON.parse` of the artifact, and the `bucket.upload` call
(whose success yields `file.metadata.size`). -/
structure PlatformEnv where
  exportOutcome : Except JsError Unit
  fileJson : Except JsError JsValue
  uploadOutcome : Except JsError String

/-- JavaScript `String.prototype.split` with a one-character separator,
on the character list: always yields at least one piece; an empty input
yields `[[]]`, a trailing separator yields a trailing empty piece. -/
def jsSplitChar (sep : Char) : List Char → List (List Char)
  | [] => [[]]
  | c :: rest =>
    match jsSplitChar sep rest with
    | [] => [[c]]
    | h :: t => if c = sep then [] :: h :: t else (c :: h) :: t

/-- JavaScript `s.split(sep)` for a one-character separator. -/
def jsSplit (sep : Char) (s : String) : List String :=
  (jsSplitChar sep s.data).map String.mk

/-- `path.parse(path).base` for POSIX paths: the final nonempty path
segment (so trailing slashes are ignored), or `""` when there is none. -/
def posixBase (p : String) : String :=
  match ((jsSplitChar '/' p.data).filter (fun s => s ≠ [])).getLast? with
  | some b => String.mk b
  | none => ""

/-- `os.tmpdir()` on the function runtime. -/
def tmpdir : String := "/tmp"

/-- From `src/unnamed/part_000`:
`tmpPath(path) = resolve(tmpdir(), parse(path).base)`. -/
def tmpPath (path : String) : String :=
  tmpdir ++ "/" ++ posixBase path

/-- The chain
`readFile(path).then(JSON.parse).then(({users}) => users.length).catch(_ => undefined)`
from `src/unnamed/part_000`, under JavaScript member-access semantics:
a read or parse error is caught to `undefined`; destructuring a
non-object (or `null`) and taking `.length` of `undefined`/`null` throw
and are caught to `undefined`; `.length` of a string or array is its
length; `.length` of a plain object is its own `length` property (or
`undefined`); `.length` of numbers and booleans is `undefined`.
`none` is JavaScript `undefined`. -/
def computeUsersCount (fileJson : Except JsError JsValue) : Option JsValue :=
  match fileJson with
  | .error _ => none
  | .ok v =>
    match v with
    | .obj fields =>
      match jsLookup fields "users" with
      | some (.str s) => some (.num s.length)
      | some (.arr xs) => some (.num xs.length)
      | some (.obj ufields) => jsLookup ufields "length"
      | _ => none
    | _ => none

/-- From `src/unnamed/part_000`: `backupUsers`. Returns the promise
outcome (`.error` = rejected promise escaping to the caller) together
with the trace of platform side effects, in program order:

* export users to `tmpPath options.path`; a rejection propagates;
* compute `usersCount`; if `undefined`, unlink the temporary file and
  return the fixed parse-failure response;
* otherwise upload; a rejection propagates (note: before the unlink);
* on success, unlink the temporary file and return the completed
  response. -/
def backupUsers (env : PlatformEnv) (projectId : String)
    (options : UsersBackupRequestOptions) :
    Except JsError UsersStatusResponse × List FsEvent :=
  let path := tmpPath options.path
  match env.exportOutcome with
  | .error e => (.error e, [.exportStarted path projectId])
  | .ok _ =>
    match computeUsersCount env.fileJson with
    | none =>
      (.ok (.failed "Failed to parse the backup file"),
        [.exportStarted path projectId, .unlink path])
    | some usersCount =>
      match env.uploadOutcome with
      | .error e =>
        (.error e,
          [.exportStarted path projectId, .uploadStarted path options.path])
      | .ok size =>
        (.ok (.completed usersCount size),
          [.exportStarted path projectId, .uploadStarted path options.path,
            .unlink path])

/-- From `src/unnamed/part_000`: `backupUsersMiddleware` casts the
request body to `UsersBackupRequestOptions` and calls `backupUsers`
directly (the source carries a `// TODO: Validate options` comment: no
validation, and in particular no `bucketsAllowlist` check, is
performed). A rejected promise is forwarded by `asyncMiddleware` to the
framework's error handler. -/
def backupUsersMiddleware (opts : UsersBackupOptions) (env : PlatformEnv)
    (body : UsersBackupRequestOptions) :
    Except JsError UsersStatusResponse × List FsEvent :=
  backupUsers env opts.projectId body

/-- Number of `unlink` events for a given path in a trace. -/
def countUnlink (path : String) (trace : List FsEvent) : Nat :=
  trace.countP (fun e => e = .unlink path)

/-- Whether a trace contains an upload event. -/
def hasUpload (trace : List FsEvent) : Bool :=
  trace.any (fun e => match e with
    | .uploadStarted _ _ => true
    | _ => false)

/-- Whether a trace contains an export event (export job started). -/
def hasExport (trace : List FsEvent) : Bool :=
  trace.any (fun e => match e with
    | .exportStarted _ _ => true
    | _ => false)

/-! Embedding of `src/src/index.ts`. -/

/-- From `src/src/index.ts`: `defaultControllerDomain`. -/
def defaultControllerDomain : String := "backupfire.dev"

/-- From `src/src/index.ts`: `defaultRegion`. -/
def defaultRegion : String := "us-central1"

/-- JavaScript truthiness of a `string | undefined` value: `undefined`
and the empty string are falsy. -/
def jsTruthy : Option String → Bool
  | none => false
  | some s => s != ""

/-- JavaScript `a || b` on `string | undefined` values. -/
def jsOr (a b : Option String) : Option String :=
  if jsTruthy a then a else b

/-- From `src/src/index.ts`: `BackupFireEnvConfig` (the `backupfire`
key of the Functions environment configuration). `none` models an
absent field. -/
structure BackupFireEnvConfig where
  domain : Option String
  token : String
  password : String
  allowlist : Option String
  debug : Option String
deriving DecidableEq, Repr

/-- From `src/src/index.ts`: `BackupFireOptions` as derived in
`backupFire` from the environment configuration. -/
structure BackupFireOptions where
  controllerDomain : Option String
  controllerToken : String
  adminPassword : String
  bucketsAllowlist : Option (List String)
  debug : Bool
deriving DecidableEq, Repr

/-- From `src/src/index.ts`: `IncompleteRuntimeEnvironment` (each
component possibly `undefined` or empty). -/
structure IncompleteRuntimeEnvironment where
  region : Option String
  projectId : Option String
  functionName : Option String
deriving DecidableEq, Repr

/-- From `src/src/index.ts`: `RuntimeEnvironment` (all components
present). -/
structure RuntimeEnvironment where
  region : String
  projectId : String
  functionName : String
deriving DecidableEq, Repr

/-- The process environment variables `getRuntimeEnv` reads. `none`
models an unset variable; `some ""` a variable set to the empty
string (falsy in the `||` chains). -/
structure ProcessEnv where
  gcpProject : Option String
  gcloudProject : Option String
  functionName : Option String
  functionTarget : Option String
deriving DecidableEq, Repr

/-- From `src/src/index.ts`:
`(envConfig.allowlist && envConfig.allowlist.split(',')) || undefined`
under JavaScript truthiness (`undefined` and `""` are falsy; an array
is always truthy, so the `|| undefined` only applies when `allowlist`
is falsy). -/
def deriveBucketsAllowlist (allowlist : Option String) : Option (List String) :=
  match allowlist with
  | none => none
  | some s => if s = "" then none else some (jsSplit ',' s)

/-- The `options` record built at the top of `backupFire` from the
environment configuration. -/
def optionsFromEnvConfig (c : BackupFireEnvConfig) : BackupFireOptions :=
  { controllerDomain := c.domain
    controllerToken := c.token
    adminPassword := c.password
    bucketsAllowlist := deriveBucketsAllowlist c.allowlist
    debug := c.debug == some "true" }

/-- From `src/src/index.ts`: `getRuntimeEnv`. The region is always the
constant `defaultRegion`; project id and function name come from the
environment variables with JavaScript `||` fallbacks. -/
def getRuntimeEnv (penv : ProcessEnv) : IncompleteRuntimeEnvironment :=
  { region := some defaultRegion
    projectId := jsOr penv.gcpProject penv.gcloudProject
    functionName := jsOr penv.functionName penv.functionTarget }

/-- From `src/src/index.ts`: `isCompleteRuntimeEnv`:
`!!functionName && !!projectId && !!region`. -/
def isCompleteRuntimeEnv (e : IncompleteRuntimeEnvironment) : Bool :=
  jsTruthy e.functionName && jsTruthy e.projectId && jsTruthy e.region

/-- The HTTPS handler `backupFire` returns: either the no-op dummy
handler (in source, `(_req, resp) => resp.end()`, ending every response
without serving any agent endpoint) or the agent Express app created by
`createApp(runtimeEnv, options)` after `sendInitializationPing` was
issued with the same `options` and `runtimeEnv`. -/
inductive Handler where
  | dummy : Handler
  | agent (runtimeEnv : RuntimeEnvironment) (options : BackupFireOptions) : Handler
deriving DecidableEq, Repr

/-- From `src/src/index.ts`: `backupFire`. In source order: a missing
`backupfire` environment configuration, a function name different from
`"backupfire"`, or an incomplete runtime environment each yield the
dummy handler; otherwise the agent app is mounted (the ping having been
sent with the same options and the narrowed runtime environment). -/
def backupFire (envConfig : Option BackupFireEnvConfig) (penv : ProcessEnv) : Handler :=
  match envConfig with
  | none => Handler.dummy
  | some c =>
    let options := optionsFromEnvConfig c
    let runtimeEnv := getRuntimeEnv penv
    if runtimeEnv.functionName ≠ some "backupfire" then Handler.dummy
    else if isCompleteRuntimeEnv runtimeEnv then
      Handler.agent
        { region := runtimeEnv.region.getD ""
          projectId := runtimeEnv.projectId.getD ""
          functionName := runtimeEnv.functionName.getD "" }
        options
    else Handler.dummy

/-- The URL value passed to `url.format` by `sendInitializationPing`:
protocol, hostname, pathname and the query key-value pairs. -/
structure PingURL where
  protocol : String
  hostname : String
  pathname : String
  query : List (String × String)
deriving DecidableEq, Repr

/-- From `src/src/index.ts`: `agentURL`. -/
def agentURL (runtimeEnv : RuntimeEnvironment) : String :=
  "https://" ++ runtimeEnv.region ++ "-" ++ runtimeEnv.projectId
    ++ ".cloudfunctions.net/" ++ runtimeEnv.functionName

/-- From `src/src/index.ts`: `sendInitializationPing` formats and
fetches this URL (fire-and-forget): hostname
`options.controllerDomain || defaultControllerDomain`, path `/ping`,
query `{token, projectId, agentURL}`. -/
def sendInitializationPing (options : BackupFireOptions)
    (runtimeEnv : RuntimeEnvironment) : PingURL :=
  { protocol := "https"
    hostname := (jsOr options.controllerDomain (some defaultControllerDomain)).getD ""
    pathname := "/ping"
    query := [("token", options.controllerToken),
              ("projectId", runtimeEnv.projectId),
              ("agentURL", agentURL runtimeEnv)] }

/-- C3 counterexample: an upload failure is not converted into a
terminal failed Operation value — the rejection escapes `backupUsers`
as an exception instead of yielding `{state: failed, reason: upload
error}` — refuting the claim that every pipeline failure is captured
locally. -/
theorem backupUsers_upload_failure_rejects_promise :
    (backupUsers ⟨.ok (), .ok (.obj [("users", .arr [.null])]), .error "upload error"⟩
        "proj" ⟨"b1", "users/2024.json"⟩).1 = .error "upload error" ∧
    (backupUsers ⟨.ok (), .ok (.obj [("users", .arr [.null])]), .error "upload error"⟩
        "proj" ⟨"b1", "users/2024.json"⟩).1 ≠
      .ok (.failed "upload error") := by
  refine ⟨rfl, ?_⟩
  intro h
  exact Except.noConfusion h

/-- C3 (amended): only parse failures are captured and converted into a
terminal failed Operation value; an export failure and an upload
failure each propagate out of `backupUsers` as the original rejection
rather than a `{state: failed}` response. -/
theorem backupUsers_failure_capture_policy
    (env : PlatformEnv) (projectId : String)
    (options : UsersBackupRequestOptions) :
    (∀ e, env.exportOutcome = .error e →
      (backupUsers env projectId options).1 = .error e) ∧
    (env.exportOutcome = .ok () → computeUsersCount env.fileJson = none →
      (backupUsers env projectId options).1 =
        .ok (.failed "Failed to parse the backup file")) ∧
    (∀ usersCount e, env.exportOutcome = .ok () →
      computeUsersCount env.fileJson = some usersCount →
      env.uploadOutcome = .error e →
      (backupUsers env projectId options).1 = .error e) := by
  refine ⟨?_, ?_, ?_⟩
  · intro e he
    unfold backupUsers
    rw [he]
  · intro hexp hparse
    unfold backupUsers
    rw [hexp, hparse]
  · intro usersCount e hexp hcount hup
    unfold backupUsers
    rw [hexp, hcount, hup]

/-- C3 witness: the three capture clauses at concrete environments. -/
theorem backupUsers_failure_capture_witness :
    (backupUsers ⟨.error "export error", .ok .null, .ok "1"⟩ "proj"
        ⟨"b1", "u.json"⟩).1 = .error "export error" ∧
    (backupUsers ⟨.ok (), .error "corrupt", .ok "1"⟩ "proj"
        ⟨"b1", "u.json"⟩).1 =
      .ok (.failed "Failed to parse the backup file") ∧
    (backupUsers ⟨.ok (), .ok (.obj [("users", .arr [])]), .error "upload error"⟩
        "proj" ⟨"b1", "u.json"⟩).1 = .error "upload error" :=
  ⟨(backupUsers_failure_capture_policy
      ⟨.error "export error", .ok .null, .ok "1"⟩ "proj" ⟨"b1", "u.json"⟩).1
      "export error" rfl,
   (backupUsers_failure_capture_policy
      ⟨.ok (), .error "corrupt", .ok "1"⟩ "proj" ⟨"b1", "u.json"⟩).2.1 rfl rfl,
   (backupUsers_failure_capture_policy
      ⟨.ok (), .ok (.obj [("users", .arr [])]), .error "upload error"⟩ "proj"
      ⟨"b1", "u.json"⟩).2.2 (.num 0) "upload error" rfl rfl rfl⟩

/-- C4 counterexample: an artifact whose parsed value has no users
array at all — the `users` field is the string `"ab"` — is not treated
as a parse failure: `backupUsers` reports `completed` with the string
length as `usersCount` and performs the upload, refuting the claim as
stated. -/
theorem backupUsers_string_users_field_completes :
    (backupUsers ⟨.ok (), .ok (.obj [("users", .str "ab")]), .ok "1024"⟩
        "proj" ⟨"b1", "users/2024.json"⟩).1 =
      .ok (.completed (.num 2) "1024") ∧
    hasUpload (backupUsers ⟨.ok (), .ok (.obj [("users", .str "ab")]), .ok "1024"⟩
        "proj" ⟨"b1", "users/2024.json"⟩).2 = true :=
  ⟨rfl, rfl⟩

/-- C4 (amended): for every users backup attempt whose export succeeded
but whose `users.length` computation yields `undefined` (unreadable
file, malformed JSON, or a parsed value without a length-bearing
`users` field — though a string or length-carrying object `users` field
is accepted), `backupUsers` returns `{state: failed, data: {reason:
"Failed to parse the backup file"}}` with exactly that reason, performs
no upload, and unlinks the temporary file exactly once before
returning. -/
theorem backupUsers_parse_failure_response
    (env : PlatformEnv) (projectId : String)
    (options : UsersBackupRequestOptions)
    (hexp : env.exportOutcome = .ok ())
    (hparse : computeUsersCount env.fileJson = none) :
    (backupUsers env projectId options).1 =
      .ok (.failed "Failed to parse the backup file") ∧
    hasUpload (backupUsers env projectId options).2 = false ∧
    countUnlink (tmpPath options.path)
      (backupUsers env projectId options).2 = 1 := by
  unfold backupUsers
  rw [hexp, hparse]
  refine ⟨rfl, rfl, ?_⟩
  simp [countUnlink, List.countP_cons, List.countP_nil]

/-- C4 witness: a corrupt artifact at a concrete environment. -/
theorem backupUsers_parse_failure_witness :
    (backupUsers ⟨.ok (), .error "SyntaxError", .ok "1"⟩ "proj"
        ⟨"b1", "users/2024.json"⟩).1 =
      .ok (.failed "Failed to parse the backup file") ∧
    hasUpload (backupUsers ⟨.ok (), .error "SyntaxError", .ok "1"⟩ "proj"
        ⟨"b1", "users/2024.json"⟩).2 = false ∧
    countUnlink (tmpPath "users/2024.json")
      (backupUsers ⟨.ok (), .error "SyntaxError", .ok "1"⟩ "proj"
        ⟨"b1", "users/2024.json"⟩).2 = 1 :=
  backupUsers_parse_failure_response ⟨.ok (), .error "SyntaxError", .ok "1"⟩
    "proj" ⟨"b1", "users/2024.json"⟩ rfl rfl

end BackupFire

namespace BackupFire

/-! Helper lemmas. -/

/-- JavaScript `split` always yields at least one piece. -/
theorem jsSplitChar_ne_nil (sep : Char) (l : List Char) :
    jsSplitChar sep l ≠ [] := by
  cases l with
  | nil => simp [jsSplitChar]
  | cons c rest =>
    simp only [jsSplitChar]
    cases jsSplitChar sep rest with
    | nil => simp
    | cons h t =>
      by_cases hc : c = sep <;> simp [hc]

/-! Claim theorems. -/

/-- C1: the spec requires a users backup request whose `storageId` is
outside a configured non-empty buckets allowlist to be rejected with a
policy violation before any side effect, but `backupUsersMiddleware`
performs no validation at all (the source reads `// TODO: Validate
options`): with allowlist `["b1"]` and a request for bucket `"b2"`, the
export side effect still happens and a completed response is produced
instead of a rejection. -/
theorem backupUsersMiddleware_ignores_allowlist :
    hasExport (backupUsersMiddleware ⟨some ["b1"], "proj"⟩
        ⟨.ok (), .ok (.obj [("users", .arr [.null])]), .ok "1024"⟩
        ⟨"b2", "users/2024.json"⟩).2 = true ∧
    (backupUsersMiddleware ⟨some ["b1"], "proj"⟩
        ⟨.ok (), .ok (.obj [("users", .arr [.null])]), .ok "1024"⟩
        ⟨"b2", "users/2024.json"⟩).1 =
      .ok (.completed (.num 1) "1024") :=
  ⟨rfl, rfl⟩

/-- C2 counterexample: when the upload fails, `backupUsers` never
unlinks the temporary file — the rejection propagates before either
`unlink` call is reached — refuting the claim that the temporary file
is deleted exactly once regardless of outcome. -/
theorem backupUsers_upload_failure_skips_unlink :
    (backupUsers ⟨.ok (), .ok (.obj [("users", .arr [])]), .error "upload failed"⟩
        "proj" ⟨"b1", "users/2024.json"⟩).1 = .error "upload failed" ∧
    countUnlink (tmpPath "users/2024.json")
      (backupUsers ⟨.ok (), .ok (.obj [("users", .arr [])]), .error "upload failed"⟩
        "proj" ⟨"b1", "users/2024.json"⟩).2 = 0 :=
  ⟨rfl, rfl⟩

/-- C2 (amended): for every users backup attempt whose export
succeeded, the temporary file is deleted exactly once before the
response is produced on the success and parse-failure outcomes; on an
upload failure the rejection propagates and no deletion happens. -/
theorem backupUsers_unlink_once_on_success_or_parse_failure
    (env : PlatformEnv) (projectId : String)
    (options : UsersBackupRequestOptions)
    (hexp : env.exportOutcome = .ok ())
    (h : computeUsersCount env.fileJson = none ∨
      ∃ size, env.uploadOutcome = .ok size) :
    countUnlink (tmpPath options.path)
      (backupUsers env projectId options).2 = 1 := by
  unfold backupUsers
  rw [hexp]
  rcases h with hparse | ⟨size, hupload⟩
  · rw [hparse]
    simp [countUnlink, List.countP_cons, List.countP_nil]
  · cases hcount : computeUsersCount env.fileJson with
    | none => simp [countUnlink, List.countP_cons, List.countP_nil]
    | some usersCount =>
      rw [hupload]
      simp [countUnlink, List.countP_cons, List.countP_nil]

/-- C2 witness: concrete instances of both hypothesis branches. -/
theorem backupUsers_unlink_once_witness :
    countUnlink (tmpPath "users/2024.json")
      (backupUsers ⟨.ok (), .error "corrupt", .ok "1"⟩ "proj"
        ⟨"b1", "users/2024.json"⟩).2 = 1 ∧
    countUnlink (tmpPath "users/2024.json")
      (backupUsers ⟨.ok (), .ok (.obj [("users", .arr [])]), .ok "1"⟩ "proj"
        ⟨"b1", "users/2024.json"⟩).2 = 1 :=
  ⟨backupUsers_unlink_once_on_success_or_parse_failure
      ⟨.ok (), .error "corrupt", .ok "1"⟩ "proj" ⟨"b1", "users/2024.json"⟩
      rfl (Or.inl rfl),
   backupUsers_unlink_once_on_success_or_parse_failure
      ⟨.ok (), .ok (.obj [("users", .arr [])]), .ok "1"⟩ "proj"
      ⟨"b1", "users/2024.json"⟩ rfl (Or.inr ⟨"1", rfl⟩)⟩


/-- C5: for every users backup whose export succeeded writing an
artifact whose parsed object carries a `users` array of N records, and
whose upload succeeded reporting size S, `backupUsers` returns `{state:
completed, data: {usersCount: N, size: S}}` — the verified count equals
the number of records actually present in the artifact. -/
theorem backupUsers_completed_counts_records
    (env : PlatformEnv) (projectId : String)
    (options : UsersBackupRequestOptions)
    (fields : List (String × JsValue)) (records : List JsValue)
    (size : String)
    (hexp : env.exportOutcome = .ok ())
    (hfile : env.fileJson = .ok (.obj fields))
    (husers : jsLookup fields "users" = some (.arr records))
    (hupload : env.uploadOutcome = .ok size) :
    (backupUsers env projectId options).1 =
      .ok (.completed (.num records.length) size) := by
  unfold backupUsers
  rw [hexp]
  have hcount : computeUsersCount env.fileJson = some (.num records.length) := by
    rw [hfile]
    simp only [computeUsersCount]
    rw [husers]
  rw [hcount, hupload]

/-- C5 witness: Scenario A of the spec — 42 well-formed records and an
upload reporting size "1024" yield `completed` with `usersCount` 42. -/
theorem backupUsers_completed_counts_witness :
    (backupUsers
        ⟨.ok (), .ok (.obj [("users", .arr (List.replicate 42 .null))]), .ok "1024"⟩
        "proj" ⟨"b1", "users/2024.json"⟩).1 =
      .ok (.completed (.num 42) "1024") := by
  have h := backupUsers_completed_counts_records
    ⟨.ok (), .ok (.obj [("users", .arr (List.replicate 42 .null))]), .ok "1024"⟩
    "proj" ⟨"b1", "users/2024.json"⟩
    [("users", .arr (List.replicate 42 .null))] (List.replicate 42 .null)
    "1024" rfl rfl rfl rfl
  simpa using h

/-- C6 counterexample: two distinct destination paths that share a
basename are mapped by `tmpPath` to the same temporary file path,
refuting injectivity of `tmpPath` on destination paths. -/
theorem tmpPath_not_injective :
    tmpPath "users/2024.json" = tmpPath "archive/2024.json" ∧
    "users/2024.json" ≠ "archive/2024.json" := by
  exact ⟨rfl, by decide⟩

/-- C6 (amended): `tmpPath` depends only on the basename (final path
segment) of the destination path — `tmpPath` is the fixed temporary
directory joined with that basename — so two invocations whose
destination bucket paths share a basename collide on the same local
temporary file; `tmpPath` is not injective on destination paths. -/
theorem tmpPath_depends_only_on_basename
    (p q : String) (h : posixBase p = posixBase q) :
    tmpPath p = tmpPath q := by
  unfold tmpPath
  rw [h]

/-- C6 witness: the dependence on the basename alone at two concrete
destination paths. -/
theorem tmpPath_basename_witness :
    tmpPath "users/2024.json" = tmpPath "backups/deep/2024.json" :=
  tmpPath_depends_only_on_basename "users/2024.json" "backups/deep/2024.json" rfl


/-- C7: for every startup in which any component of the runtime
identity (project id, function name, or region) cannot be determined
(is absent or empty), `backupFire` installs the no-op dummy handler
instead of attempting partial operation. -/
theorem backupFire_incomplete_env_dummy
    (envConfig : Option BackupFireEnvConfig) (penv : ProcessEnv)
    (h : jsTruthy (getRuntimeEnv penv).projectId = false ∨
      jsTruthy (getRuntimeEnv penv).functionName = false ∨
      jsTruthy (getRuntimeEnv penv).region = false) :
    backupFire envConfig penv = Handler.dummy := by
  cases envConfig with
  | none => rfl
  | some c =>
    unfold backupFire
    by_cases hfn : (getRuntimeEnv penv).functionName = some "backupfire"
    · have htr : jsTruthy (getRuntimeEnv penv).functionName = true := by
        rw [hfn]; rfl
      have hreg : jsTruthy (getRuntimeEnv penv).region = true := rfl
      have hpid : jsTruthy (getRuntimeEnv penv).projectId = false := by
        rcases h with h | h | h
        · exact h
        · rw [htr] at h; exact absurd h (by simp)
        · rw [hreg] at h; exact absurd h (by simp)
      have hcomp : isCompleteRuntimeEnv (getRuntimeEnv penv) = false := by
        unfold isCompleteRuntimeEnv
        rw [hpid]
        simp
      simp [hfn, hcomp]
    · simp [hfn]

/-- C7 witness: project id undetermined at a concrete startup. -/
theorem backupFire_incomplete_env_witness :
    backupFire (some ⟨none, "tok", "pw", none, none⟩)
      ⟨none, none, some "backupfire", none⟩ = Handler.dummy :=
  backupFire_incomplete_env_dummy (some ⟨none, "tok", "pw", none, none⟩)
    ⟨none, none, some "backupfire", none⟩ (Or.inl rfl)

/-- C8: for every successful startup (one returning the agent handler),
the initialization ping URL is an https URL to `/ping` on the
configured controller domain — defaulting to `backupfire.dev` — whose
query carries exactly the controller token, the project identifier, and
the agent URL `https://{region}-{projectId}.cloudfunctions.net/{functionName}`. -/
theorem sendInitializationPing_url_shape
    (envConfig : BackupFireEnvConfig) (penv : ProcessEnv)
    (re : RuntimeEnvironment) (opts : BackupFireOptions)
    (_h : backupFire (some envConfig) penv = Handler.agent re opts) :
    (sendInitializationPing opts re).protocol = "https" ∧
    (sendInitializationPing opts re).pathname = "/ping" ∧
    (jsTruthy opts.controllerDomain = false →
      (sendInitializationPing opts re).hostname = defaultControllerDomain) ∧
    (∀ d, opts.controllerDomain = some d → d ≠ "" →
      (sendInitializationPing opts re).hostname = d) ∧
    (sendInitializationPing opts re).query =
      [("token", opts.controllerToken),
       ("projectId", re.projectId),
       ("agentURL", "https://" ++ re.region ++ "-" ++ re.projectId
          ++ ".cloudfunctions.net/" ++ re.functionName)] := by
  refine ⟨rfl, rfl, ?_, ?_, rfl⟩
  · intro hd
    simp [sendInitializationPing, jsOr, hd]
  · intro d hd hne
    simp [sendInitializationPing, jsOr, jsTruthy, hd, hne]

/-- C8 witness: a concrete successful startup with no configured
controller domain pings `backupfire.dev` with the expected query. -/
theorem sendInitializationPing_url_witness :
    backupFire (some ⟨none, "tok", "pw", none, none⟩)
      ⟨some "proj", none, some "backupfire", none⟩ =
      Handler.agent ⟨"us-central1", "proj", "backupfire"⟩
        ⟨none, "tok", "pw", none, false⟩ ∧
    (sendInitializationPing ⟨none, "tok", "pw", none, false⟩
        ⟨"us-central1", "proj", "backupfire"⟩).hostname = "backupfire.dev" ∧
    (sendInitializationPing ⟨none, "tok", "pw", none, false⟩
        ⟨"us-central1", "proj", "backupfire"⟩).query =
      [("token", "tok"), ("projectId", "proj"),
       ("agentURL", "https://us-central1-proj.cloudfunctions.net/backupfire")] := by
  refine ⟨rfl, ?_, ?_⟩
  · exact (sendInitializationPing_url_shape ⟨none, "tok", "pw", none, none⟩
      ⟨some "proj", none, some "backupfire", none⟩
      ⟨"us-central1", "proj", "backupfire"⟩
      ⟨none, "tok", "pw", none, false⟩ rfl).2.2.1 rfl
  · exact (sendInitializationPing_url_shape ⟨none, "tok", "pw", none, none⟩
      ⟨some "proj", none, some "backupfire", none⟩
      ⟨"us-central1", "proj", "backupfire"⟩
      ⟨none, "tok", "pw", none, false⟩ rfl).2.2.2.2

/-- C9: whenever the resolved function name differs from `"backupfire"`
— even with the environment configuration present and the runtime
environment otherwise complete — `backupFire` installs the dummy
handler; conversely the agent handler is only ever mounted with
function name `"backupfire"`. -/
theorem backupFire_function_name_gate :
    (∀ (c : BackupFireEnvConfig) (penv : ProcessEnv),
      (getRuntimeEnv penv).functionName ≠ some "backupfire" →
      backupFire (some c) penv = Handler.dummy) ∧
    (∀ (envConfig : Option BackupFireEnvConfig) (penv : ProcessEnv)
      (re : RuntimeEnvironment) (opts : BackupFireOptions),
      backupFire envConfig penv = Handler.agent re opts →
      re.functionName = "backupfire") := by
  constructor
  · intro c penv hfn
    unfold backupFire
    simp [hfn]
  · intro envConfig penv re opts h
    cases envConfig with
    | none => exact Handler.noConfusion h
    | some c =>
      simp only [backupFire] at h
      split at h
      · exact Handler.noConfusion h
      · rename_i hfn
        rw [not_ne_iff] at hfn
        split at h
        · injection h with h1 h2
          rw [← h1]
          simp [hfn]
        · exact Handler.noConfusion h

/-- C9 witness: a complete runtime environment under a different
function name yields the dummy handler. -/
theorem backupFire_function_name_witness :
    backupFire (some ⟨none, "tok", "pw", none, none⟩)
      ⟨some "proj", none, some "other", none⟩ = Handler.dummy :=
  backupFire_function_name_gate.1 ⟨none, "tok", "pw", none, none⟩
    ⟨some "proj", none, some "other", none⟩ (by decide)

/-- C10: the derived buckets allowlist is either `undefined` (absent or
empty allowlist string: no restriction) or a non-empty list of the
comma-separated segments; the derivation never produces an empty list,
so an empty allowlist can never mean deny-all. -/
theorem deriveBucketsAllowlist_none_or_nonempty (allowlist : Option String) :
    deriveBucketsAllowlist allowlist = none ∨
      ∃ l, deriveBucketsAllowlist allowlist = some l ∧ l ≠ [] := by
  cases allowlist with
  | none => exact Or.inl rfl
  | some s =>
    by_cases hs : s = ""
    · exact Or.inl (by simp [deriveBucketsAllowlist, hs])
    · refine Or.inr ⟨jsSplit ',' s, by simp [deriveBucketsAllowlist, hs], ?_⟩
      intro hnil
      rw [jsSplit] at hnil
      exact jsSplitChar_ne_nil ',' s.data (List.map_eq_nil_iff.mp hnil)

end BackupFire
